import Mathlib

/-!
Verification of the CodeAtlas backend (a single-file Flask application,
`app.py`).  The definitions below are a shallow embedding of the source:
pure string manipulation is translated directly, HTTP and model calls are
modelled by oracle functions supplied in an environment record, and the
SQLAlchemy store is modelled as an explicit list-based state.  Each theorem
settles one claim about the program.
-/

namespace CodeAtlas

/-! Section: URL parsing (function parse_github_url).

The source matches the input against the regular expression
`https://github\.com/([^/]+)/([^/]+)` with `re.search` (leftmost match,
unanchored) and returns `(group 1, group 2.strip())` on success.
We model the regex search directly on the character list. -/

/-- Characters of the literal part of the regex. -/
def ghLit : List Char := "https://github.com/".toList

/-- Characters of the URL scheme literal. -/
def httpsLit : List Char := "https://".toList

/-- Test startsWithL pat s: does `s` begin with the pattern characters `pat`? -/
def startsWithL : List Char → List Char → Bool
  | [], _ => true
  | _ :: _, [] => false
  | a :: as, b :: bs => a == b && startsWithL as bs

/-- Split a character list into its maximal leading run of non-slash
characters (the greedy match of `[^/]+`) and the remainder. -/
def takeRun : List Char → List Char × List Char
  | [] => ([], [])
  | c :: rest =>
    if c == '/' then ([], c :: rest)
    else (c :: (takeRun rest).1, (takeRun rest).2)

/-- Attempt the whole regex anchored at the head of `cs`: the literal
`https://github.com/`, then a nonempty run of non-slash characters (owner),
a slash, and another nonempty run (repo). -/
def matchAt (cs : List Char) : Option (List Char × List Char) :=
  if startsWithL ghLit cs then
    let own := (takeRun (cs.drop ghLit.length)).1
    let rest2 := (takeRun (cs.drop ghLit.length)).2
    if own = [] then none
    else
      match rest2 with
      | '/' :: rest3 =>
        let rep := (takeRun rest3).1
        if rep = [] then none else some (own, rep)
      | _ => none
  else none

/-- Model of re.search: try the anchored match at every position, left to right. -/
def searchGH : List Char → Option (List Char × List Char)
  | [] => none
  | c :: t =>
    match matchAt (c :: t) with
    | some r => some r
    | none => searchGH t

/-- Python str.strip: drop whitespace from both ends. -/
def pyStrip (cs : List Char) : List Char :=
  ((cs.dropWhile Char.isWhitespace).reverse.dropWhile Char.isWhitespace).reverse

/-- Function parse_github_url from app.py: regex search, and `.strip()` applied
to the second capture group.  `none` models the Python `(None, None)`. -/
def parse_github_url (url : String) : Option (String × String) :=
  match searchGH url.toList with
  | some (o, r) => some (o.asString, (pyStrip r).asString)
  | none => none

/-! Section: the analysis pipeline (route POST /api/analyze).

The GitHub API, the Gemini model and the Markdown renderer are external
collaborators; they are modelled by oracle functions in an `Upstreams`
record.  Every helper additionally reports the list of outbound calls it
performed, so that the all-or-nothing / short-circuit behaviour of the
route is observable. -/

/-- One outbound network call made by the analyze pipeline. -/
inductive Call
  | readme | repoInfo | tree | gen
deriving DecidableEq, Repr

/-- Failure of a GitHub request as seen by `get_github_readme`: an HTTP
error status, or any other exception (network, decode, ...). -/
inductive GithubErr
  | http (status : Nat)
  | other (msg : String)
deriving DecidableEq, Repr

/-- One entry of the recursive git tree returned by the GitHub API. -/
structure TreeEntry where
  path : String
  type : String
deriving DecidableEq, Repr

/-- Oracles for the external collaborators of the analyze route. -/
structure Upstreams where
  readme : String → String → Except GithubErr String
  repoInfo : String → String → Except String String
  tree : String → String → String → Except String (List TreeEntry)
  gen : String → Except String String
  md : String → String

/-- Python string join on a list of strings. -/
def pyJoin (sep : String) : List String → String
  | [] => ""
  | [a] => a
  | a :: b :: rest => a ++ sep ++ pyJoin sep (b :: rest)

/-- Error text built by get_github_readme for each exception kind. -/
def readmeErrMsg : GithubErr → String
  | .http s => "Could not fetch README. (HTTP Error: " ++ toString s ++ ")"
  | .other m => "An unexpected error occurred: " ++ m

/-- Function get_github_readme from app.py. -/
def get_github_readme (env : Upstreams) (owner repo : String) :
    Except String String × List Call :=
  match env.readme owner repo with
  | .ok c => (.ok c, [.readme])
  | .error e => (.error (readmeErrMsg e), [.readme])

/-- Prompt text of summarize_readme_with_gemini. -/
def sumPrompt (content : String) : String :=
  "As a senior software engineer, analyze the following README and provide a concise summary in Markdown format, including project purpose, key features, and technology stack.\n---" ++ content

/-- Function summarize_readme_with_gemini from app.py: empty input is rejected
before the model is called; the model output is rendered to HTML. -/
def summarize_readme_with_gemini (env : Upstreams) (content : String) :
    Except String String × List Call :=
  if content = "" then (.error "README content is empty.", [])
  else
    match env.gen (sumPrompt content) with
    | .ok t => (.ok (env.md t), [.gen])
    | .error e => (.error ("Error generating summary: " ++ e), [.gen])

/-- Function get_github_file_structure from app.py: repo metadata for the
default branch, recursive tree, blobs only, first 200 paths, joined. -/
def get_github_file_structure (env : Upstreams) (owner repo : String) :
    Except String String × List Call :=
  match env.repoInfo owner repo with
  | .error e => (.error ("Could not fetch file structure: " ++ e), [.repoInfo])
  | .ok default_branch =>
    match env.tree owner repo default_branch with
    | .error e => (.error ("Could not fetch file structure: " ++ e), [.repoInfo, .tree])
    | .ok entries =>
      let files := (entries.filter (fun it => it.type == "blob")).map (fun it => it.path)
      (.ok (pyJoin "\n" (files.take 200)), [.repoInfo, .tree])

/-- Prompt text of analyze_structure_with_gemini. -/
def anaPrompt (fs : String) : String :=
  "You are a principal software architect. Based on the file structure, provide a high-level analysis in Markdown format, including likely architecture, key components, and code organization.\n---" ++ fs

/-- Function analyze_structure_with_gemini from app.py. -/
def analyze_structure_with_gemini (env : Upstreams) (fs : String) :
    Except String String × List Call :=
  if fs = "" then (.error "File structure is empty.", [])
  else
    match env.gen (anaPrompt fs) with
    | .ok t => (.ok (env.md t), [.gen])
    | .error e => (.error ("Error generating analysis: " ++ e), [.gen])

/-- Prompt text of get_setup_guide_with_gemini. -/
def setupPrompt (readme fs : String) : String :=
  "Based on the README and file structure, provide a step-by-step setup guide in Markdown format.\n---README---\n" ++ readme ++ "\n---FILE STRUCTURE---\n" ++ fs

/-- Function get_setup_guide_with_gemini from app.py: note that unlike the two
helpers above it performs no empty-input check. -/
def get_setup_guide_with_gemini (env : Upstreams) (readme fs : String) :
    Except String String × List Call :=
  match env.gen (setupPrompt readme fs) with
  | .ok t => (.ok (env.md t), [.gen])
  | .error e => (.error ("Error generating setup guide: " ++ e), [.gen])

/-- Response of the analyze route: all three documents, or one error. -/
inductive AnalyzeResp
  | ok (readme_summary structure_analysis setup_guide : String)
  | err (status : Nat) (msg : String)
deriving DecidableEq, Repr

/-- Function analyze_repo_route from app.py, with the outbound calls traced.
The request body is `none` when `repo_url` is missing from the JSON. -/
def analyze_repo_route (env : Upstreams) (body : Option String) :
    AnalyzeResp × List Call :=
  match body with
  | none => (.err 400 "repo_url is required", [])
  | some url =>
    if url = "" then (.err 400 "repo_url is required", [])
    else
      match parse_github_url url with
      | none => (.err 400 "Invalid GitHub URL", [])
      | some (owner, repo) =>
        if owner = "" ∨ repo = "" then (.err 400 "Invalid GitHub URL", [])
        else
          match get_github_readme env owner repo with
          | (.error e, c1) => (.err 500 e, c1)
          | (.ok readme_content, c1) =>
            match summarize_readme_with_gemini env readme_content with
            | (.error e, c2) => (.err 500 e, c1 ++ c2)
            | (.ok readme_summary, c2) =>
              match get_github_file_structure env owner repo with
              | (.error e, c3) => (.err 500 e, c1 ++ c2 ++ c3)
              | (.ok fs, c3) =>
                match analyze_structure_with_gemini env fs with
                | (.error e, c4) => (.err 500 e, c1 ++ c2 ++ c3 ++ c4)
                | (.ok structure_analysis, c4) =>
                  match get_setup_guide_with_gemini env readme_content fs with
                  | (.error e, c5) => (.err 500 e, c1 ++ c2 ++ c3 ++ c4 ++ c5)
                  | (.ok setup_guide, c5) =>
                    (.ok readme_summary structure_analysis setup_guide,
                      c1 ++ c2 ++ c3 ++ c4 ++ c5)

/-! Section: the trending route (GET /api/trending). -/

/-- One item of the GitHub search response. -/
structure SearchItem where
  full_name : String
  html_url : String
  stargazers_count : Nat
  description : Option String
  forks_count : Nat
deriving DecidableEq, Repr

/-- The projection returned to the client by the trending route. -/
structure TrendingEntry where
  name : String
  url : String
  stars : Nat
  description : String
  forks : Nat
deriving DecidableEq, Repr

/-- Oracles for the trending route: dateFmt is strftime on a day
number (utcnow modelled at day granularity), and search is the
GitHub search endpoint keyed by the full request URL. -/
structure TrendingEnv where
  dateFmt : Nat → String
  search : String → Except String (List SearchItem)

/-- Token list q built by trending_repos_route: the caller's
search term first when truthy, then the creation-date constraint
created-after today minus 730 days. -/
def trendingQ (env : TrendingEnv) (search_query : Option String) (today : Nat) :
    List String :=
  (match search_query with
   | some s => if s = "" then [] else [s]
   | none => []) ++ ["created:>" ++ env.dateFmt (today - 730)]

/-- Full search URL built by trending_repos_route. -/
def trendingUrl (env : TrendingEnv) (search_query : Option String) (today : Nat) :
    String :=
  "https://api.github.com/search/repositories?q="
    ++ pyJoin "+" (trendingQ env search_query today)
    ++ "&sort=stars&order=desc&per_page=12"

/-- Per-item projection of the trending route (description or empty). -/
def projectItem (r : SearchItem) : TrendingEntry :=
  ⟨r.full_name, r.html_url, r.stargazers_count, r.description.getD "", r.forks_count⟩

/-- Response of the trending route. -/
inductive TrendingResp
  | ok (entries : List TrendingEntry)
  | err (status : Nat) (msg : String)
deriving DecidableEq, Repr

/-- Function trending_repos_route from app.py. -/
def trending_repos_route (env : TrendingEnv) (search_query : Option String)
    (today : Nat) : TrendingResp :=
  match env.search (trendingUrl env search_query today) with
  | .ok items => .ok (items.map projectItem)
  | .error e => .err 500 ("Error searching repos: " ++ e)

/-- Pairwise-descending check on a list of numbers. -/
def sortedDescBool : List Nat → Bool
  | [] => true
  | [_] => true
  | a :: b :: t => decide (b ≤ a) && sortedDescBool (b :: t)

/-! Section: the idea board (routes on /api/posts). -/

/-- Row of the Post table. -/
structure Post where
  id : Nat
  repo_name : String
  idea : String
  timestamp : Nat
deriving DecidableEq, Repr

/-- Row of the Comment table. -/
structure Comment where
  id : Nat
  text : String
  timestamp : Nat
  post_id : Nat
deriving DecidableEq, Repr

/-- The relational store: both tables plus the auto-increment counter. -/
structure Store where
  posts : List Post
  comments : List Comment
  nextId : Nat
deriving DecidableEq, Repr

/-- The store created on first startup. -/
def emptyStore : Store := ⟨[], [], 1⟩

/-- Summary row returned by GET /api/posts. -/
structure PostSummary where
  id : Nat
  repo_name : String
  idea : String
  timestamp : String
  comments_count : Nat
deriving DecidableEq, Repr

/-- Insert a post into a timestamp-descending list (ORDER BY timestamp
descending; ties are not ordered by any secondary key). -/
def insertByTsDesc (p : Post) : List Post → List Post
  | [] => [p]
  | q :: t => if q.timestamp < p.timestamp then p :: q :: t else q :: insertByTsDesc p t

/-- Sort the post table by timestamp, newest first. -/
def sortByTsDesc : List Post → List Post
  | [] => []
  | p :: t => insertByTsDesc p (sortByTsDesc t)

/-- Function get_posts from app.py: posts newest first, each with the
formatted timestamp and the size of its comment set. -/
def get_posts (st : Store) (fmt : Nat → String) : List PostSummary :=
  (sortByTsDesc st.posts).map fun p =>
    ⟨p.id, p.repo_name, p.idea, fmt p.timestamp,
      (st.comments.filter (fun c => c.post_id == p.id)).length⟩

/-- JSON body plus status returned by POST /api/posts. -/
structure ApiMsg where
  status : Nat
  success : Bool
  message : String
deriving DecidableEq, Repr

/-- Python truthiness of the optional JSON fields (missing and empty are
falsy). -/
def pyTruthy : Option String → Bool
  | none => false
  | some s => s != ""

/-- Function add_post from app.py.  Here now is the creation time and dbOk
models whether the commit succeeds — on failure the session is rolled
back, leaving the store unchanged. -/
def add_post (st : Store) (repo_name idea : Option String) (now : Nat)
    (dbOk : Bool) : Store × ApiMsg :=
  match repo_name, idea with
  | some r, some i =>
    if r != "" && i != "" then
      if dbOk then
        (⟨st.posts ++ [⟨st.nextId, r, i, now⟩], st.comments, st.nextId + 1⟩,
          ⟨201, true, "Idea posted successfully!"⟩)
      else (st, ⟨500, false, "Database error."⟩)
    else (st, ⟨400, false, "Missing repository name or idea."⟩)
  | _, _ => (st, ⟨400, false, "Missing repository name or idea."⟩)

/-! Section: auxiliary definitions used by the statements. -/

/-- Does the pattern occur as a contiguous substring? -/
def containsTok (pat : List Char) : List Char → Bool
  | [] => startsWithL pat []
  | c :: t => startsWithL pat (c :: t) || containsTok pat t

/-- File-structure text as the specification words it: filter the tree to
entries of type blob, take at most the first 200 paths in order, join with
newlines. -/
def fileStructureSpec (entries : List TreeEntry) : String :=
  pyJoin "\n" (((entries.filter (fun it => it.type == "blob")).map (fun it => it.path)).take 200)

instance instDecEqExcept {ε α : Type} [DecidableEq ε] [DecidableEq α] :
    DecidableEq (Except ε α) := fun a b =>
  match a, b with
  | .ok a, .ok b =>
    if h : a = b then .isTrue (by rw [h]) else .isFalse (fun e => h (by cases e; rfl))
  | .error a, .error b =>
    if h : a = b then .isTrue (by rw [h]) else .isFalse (fun e => h (by cases e; rfl))
  | .ok _, .error _ => .isFalse (fun e => by cases e)
  | .error _, .ok _ => .isFalse (fun e => by cases e)

/-- Invariant of the idea board: every stored post has a non-empty
repository name and a non-empty idea. -/
def postsNonEmptyInv (st : Store) : Prop :=
  ∀ p ∈ st.posts, p.repo_name ≠ "" ∧ p.idea ≠ ""

instance (st : Store) : Decidable (postsNonEmptyInv st) :=
  List.decidableBAll _ st.posts

/-- Concrete oracle set whose README fetch raises a generic exception and
whose model always answers the text X. -/
def envW : Upstreams :=
  ⟨fun _ _ => Except.error (GithubErr.other "boom"),
   fun _ _ => Except.error "x",
   fun _ _ _ => Except.error "x",
   fun _ => Except.ok "X",
   fun s => s⟩

/-- Concrete oracle set with a successful metadata and tree fetch. -/
def envTree : Upstreams :=
  ⟨fun _ _ => Except.ok "R",
   fun _ _ => Except.ok "main",
   fun _ _ _ => Except.ok [⟨"a.py", "blob"⟩, ⟨"docs", "tree"⟩, ⟨"b.md", "blob"⟩],
   fun _ => Except.ok "X",
   fun s => s⟩

/-- Concrete trending oracle: a fixed formatted date and two results. -/
def envTrend : TrendingEnv :=
  ⟨fun _ => "2023-10-13",
   fun _ => Except.ok [⟨"a/b", "u1", 50, none, 3⟩, ⟨"c/d", "u2", 10, some "dd", 4⟩]⟩

/-! Section: lemmas about the regex-search model. -/

theorem startsWithL_append (p s : List Char) : startsWithL p (p ++ s) = true := by
  induction p with
  | nil => rfl
  | cons a as ih => simp [startsWithL, ih]

theorem takeRun_append (a b : List Char) (h : '/' ∉ a) :
    takeRun (a ++ b) = (a ++ (takeRun b).1, (takeRun b).2) := by
  induction a with
  | nil => simp
  | cons c a ih =>
    have hc : c ≠ '/' := by
      intro e
      exact h (by simp [e])
    have ha : '/' ∉ a := fun m => h (by simp [m])
    simp [takeRun, hc, ih ha]

theorem takeRun_no_slash (a : List Char) (h : '/' ∉ a) : takeRun a = (a, []) := by
  have := takeRun_append a [] h
  simpa [takeRun] using this

theorem takeRun_slash_cons (b : List Char) : takeRun ('/' :: b) = ([], '/' :: b) := by
  simp [takeRun]

theorem matchAt_decomp (o r : List Char) (ho : o ≠ []) (ho2 : '/' ∉ o) :
    matchAt (ghLit ++ (o ++ ('/' :: r)))
      = if (takeRun r).1 = [] then none else some (o, (takeRun r).1) := by
  have h1 : startsWithL ghLit (ghLit ++ (o ++ ('/' :: r))) = true :=
    startsWithL_append ghLit (o ++ ('/' :: r))
  have h2 : (ghLit ++ (o ++ ('/' :: r))).drop ghLit.length = o ++ ('/' :: r) :=
    List.drop_left ghLit (o ++ ('/' :: r))
  have h3 : takeRun (o ++ ('/' :: r)) = (o, '/' :: r) := by
    rw [takeRun_append o ('/' :: r) ho2, takeRun_slash_cons]
    simp
  simp [matchAt, h1, h2, h3, ho]

theorem searchGH_eq_of_matchAt (cs : List Char) (x : List Char × List Char)
    (h : matchAt cs = some x) : searchGH cs = some x := by
  cases cs with
  | nil =>
    have : matchAt ([] : List Char) = none := by decide
    rw [this] at h
    cases h
  | cons c t => simp [searchGH, h]

theorem searchGH_append_isSome (pre cs : List Char)
    (h : (searchGH cs).isSome = true) : (searchGH (pre ++ cs)).isSome = true := by
  induction pre with
  | nil => simpa using h
  | cons p pre ih =>
    rw [List.cons_append]
    cases hm : matchAt (p :: (pre ++ cs)) with
    | some v => simp [searchGH, hm]
    | none => simpa [searchGH, hm] using ih

theorem startsWithL_mono (p q cs : List Char)
    (h : startsWithL (p ++ q) cs = true) : startsWithL p cs = true := by
  induction p generalizing cs with
  | nil => rfl
  | cons a as ih =>
    cases cs with
    | nil => simp [startsWithL] at h
    | cons b bs =>
      rw [List.cons_append, startsWithL] at h
      rw [startsWithL]
      rcases Bool.and_eq_true_iff.1 h with ⟨hab, ht⟩
      rw [hab, ih bs ht]
      rfl

theorem matchAt_none_of_no_https (cs : List Char)
    (h : startsWithL httpsLit cs = false) : matchAt cs = none := by
  have hsplit : ghLit = httpsLit ++ "github.com/".toList := by decide
  cases hg : startsWithL ghLit cs with
  | false => simp [matchAt, hg]
  | true =>
    rw [hsplit] at hg
    rw [startsWithL_mono httpsLit "github.com/".toList cs hg] at h
    cases h

theorem searchGH_none_of_no_https (cs : List Char)
    (h : containsTok httpsLit cs = false) : searchGH cs = none := by
  induction cs with
  | nil => rfl
  | cons c t ih =>
    rw [containsTok, Bool.or_eq_false_iff] at h
    rw [searchGH, matchAt_none_of_no_https (c :: t) h.1]
    exact ih h.2

theorem parse_isSome_of_searchGH (url : String)
    (h : (searchGH url.toList).isSome = true) :
    (parse_github_url url).isSome = true := by
  unfold parse_github_url
  cases hs : searchGH url.toList with
  | none => rw [hs] at h; cases h
  | some v => obtain ⟨a, b⟩ := v; simp [hs]

/-! Section: claim theorems. -/

/-- Claim C2, counterexample: the string "github.com/o/r" matches the
pattern github.com/owner/repo stated by the claim, yet parse_github_url
yields no reference, because the regex in the source additionally requires
the literal scheme text before the host. -/
theorem parse_no_scheme_counterexample :
    parse_github_url "github.com/o/r" = none := by
  decide

/-- Claim C2 (amended): for every URL containing the substring pattern
https-scheme github.com/owner/repo (searched anywhere in the string), the
parser yields exactly the pair (owner, repo) with the repo segment cut at
the next slash and whitespace-stripped; when parsing yields no reference
the analyze route fails with HTTP 400 and makes no upstream call. -/
theorem parse_github_url_spec (env : Upstreams) (o r tail : List Char)
    (ho : o ≠ []) (ho2 : '/' ∉ o) (hr : r ≠ []) (hr2 : '/' ∉ r) :
    parse_github_url ((ghLit ++ (o ++ ('/' :: r))).asString)
        = some (o.asString, (pyStrip r).asString)
    ∧ parse_github_url ((ghLit ++ (o ++ ('/' :: (r ++ ('/' :: tail))))).asString)
        = some (o.asString, (pyStrip r).asString)
    ∧ (∀ url : String, parse_github_url url = none → url ≠ "" →
        analyze_repo_route env (some url) = (.err 400 "Invalid GitHub URL", [])) := by
  refine ⟨?_, ?_, ?_⟩
  · have hm : matchAt (ghLit ++ (o ++ ('/' :: r))) = some (o, r) := by
      rw [matchAt_decomp o r ho ho2, takeRun_no_slash r hr2]
      simp [hr]
    have hs := searchGH_eq_of_matchAt _ _ hm
    unfold parse_github_url
    rw [show ((ghLit ++ (o ++ ('/' :: r))).asString).toList
          = ghLit ++ (o ++ ('/' :: r)) from rfl, hs]
  · have hm : matchAt (ghLit ++ (o ++ ('/' :: (r ++ ('/' :: tail))))) = some (o, r) := by
      rw [matchAt_decomp o (r ++ ('/' :: tail)) ho ho2,
        takeRun_append r ('/' :: tail) hr2, takeRun_slash_cons]
      simp [hr]
    have hs := searchGH_eq_of_matchAt _ _ hm
    unfold parse_github_url
    rw [show ((ghLit ++ (o ++ ('/' :: (r ++ ('/' :: tail))))).asString).toList
          = ghLit ++ (o ++ ('/' :: (r ++ ('/' :: tail)))) from rfl, hs]
  · intro url hnone hne
    simp [analyze_repo_route, hnone, hne]

/-- Claim C2 witness: a URL with a trailing path parses to its owner and
repo segments, and a URL with no match makes the route answer 400. -/
theorem parse_github_url_spec_witness :
    parse_github_url "https://github.com/octo/repo/tree/main" = some ("octo", "repo")
    ∧ analyze_repo_route envW (some "github.com/o/r")
        = (.err 400 "Invalid GitHub URL", []) := by
  constructor
  · have h := (parse_github_url_spec envW "octo".toList "repo".toList
      "tree/main".toList (by decide) (by decide) (by decide) (by decide)).2.1
    have e1 : ((ghLit ++ ("octo".toList ++ ('/' :: ("repo".toList
        ++ ('/' :: "tree/main".toList))))).asString)
          = "https://github.com/octo/repo/tree/main" := by decide
    have e2 : ("octo".toList.asString, (pyStrip "repo".toList).asString)
          = ("octo", "repo") := by decide
    rw [e1, e2] at h
    exact h
  · exact (parse_github_url_spec envW "a".toList "b".toList
      [] (by decide) (by decide) (by decide) (by decide)).2.2
      "github.com/o/r" (by decide) (by decide)

/-- Claim C10: parsing succeeds on every input containing the substring
scheme-and-host pattern followed by owner, slash, repo (arbitrary text
before and after), and yields no reference on every input that lacks the
literal https scheme text. -/
theorem parse_search_characterization :
    (∀ pre o r post : List Char, o ≠ [] → '/' ∉ o → r ≠ [] → '/' ∉ r →
      (parse_github_url ((pre ++ (ghLit ++ (o ++ ('/' :: (r ++ post))))).asString)).isSome
        = true)
    ∧ (∀ url : String, containsTok httpsLit url.toList = false →
        parse_github_url url = none) := by
  constructor
  · intro pre o r post ho ho2 hr hr2
    have hm : matchAt (ghLit ++ (o ++ ('/' :: (r ++ post))))
        = some (o, r ++ (takeRun post).1) := by
      rw [matchAt_decomp o (r ++ post) ho ho2, takeRun_append r post hr2]
      simp [hr]
    have hs := searchGH_eq_of_matchAt _ _ hm
    apply parse_isSome_of_searchGH
    rw [show ((pre ++ (ghLit ++ (o ++ ('/' :: (r ++ post))))).asString).toList
          = pre ++ (ghLit ++ (o ++ ('/' :: (r ++ post)))) from rfl]
    exact searchGH_append_isSome pre _ (by rw [hs]; rfl)
  · intro url h
    unfold parse_github_url
    rw [searchGH_none_of_no_https url.toList h]

/-- Claim C10 witness: surrounding text does not defeat the search, and a
URL without the https scheme yields no reference. -/
theorem parse_search_characterization_witness :
    (parse_github_url "see https://github.com/foo/bar today").isSome = true
    ∧ parse_github_url "http://github.com/o/r" = none := by
  constructor
  · have h := parse_search_characterization.1 "see ".toList "foo".toList
      "bar".toList " today".toList (by decide) (by decide) (by decide) (by decide)
    have e : (("see ".toList ++ (ghLit ++ ("foo".toList
        ++ ('/' :: ("bar".toList ++ " today".toList))))).asString)
          = "see https://github.com/foo/bar today" := by decide
    rw [e] at h
    exact h
  · exact parse_search_characterization.2 "http://github.com/o/r" (by decide)

/-- Claim C1: the analyze pipeline is all-or-nothing.  For every oracle
environment and request: a missing or invalid URL answers 400 with no
upstream call; when any step fails the response is exactly that first
error with status 500, the recorded outbound calls stop at the failing
step, and no documents are returned; only when every step succeeds are the
three rendered documents returned together, after the full call sequence
readme, model, repo metadata, tree, model, model. -/
theorem analyze_first_error (env : Upstreams) (url : String) :
    analyze_repo_route env none = (.err 400 "repo_url is required", [])
    ∧ analyze_repo_route env (some "") = (.err 400 "repo_url is required", [])
    ∧ (parse_github_url url = none → url ≠ "" →
        analyze_repo_route env (some url) = (.err 400 "Invalid GitHub URL", []))
    ∧ (∀ o r, parse_github_url url = some (o, r) → (o = "" ∨ r = "") →
        analyze_repo_route env (some url) = (.err 400 "Invalid GitHub URL", []))
    ∧ (∀ o r, parse_github_url url = some (o, r) → o ≠ "" → r ≠ "" →
        ((∀ m, env.readme o r = .error m →
            analyze_repo_route env (some url)
              = (.err 500 (readmeErrMsg m), [.readme]))
        ∧ (env.readme o r = .ok "" →
            analyze_repo_route env (some url)
              = (.err 500 "README content is empty.", [.readme]))
        ∧ (∀ c e, env.readme o r = .ok c → c ≠ "" →
            env.gen (sumPrompt c) = .error e →
            analyze_repo_route env (some url)
              = (.err 500 ("Error generating summary: " ++ e), [.readme, .gen]))
        ∧ (∀ c s e, env.readme o r = .ok c → c ≠ "" →
            env.gen (sumPrompt c) = .ok s →
            env.repoInfo o r = .error e →
            analyze_repo_route env (some url)
              = (.err 500 ("Could not fetch file structure: " ++ e),
                  [.readme, .gen, .repoInfo]))
        ∧ (∀ c s b e, env.readme o r = .ok c → c ≠ "" →
            env.gen (sumPrompt c) = .ok s →
            env.repoInfo o r = .ok b →
            env.tree o r b = .error e →
            analyze_repo_route env (some url)
              = (.err 500 ("Could not fetch file structure: " ++ e),
                  [.readme, .gen, .repoInfo, .tree]))
        ∧ (∀ c s b entries, env.readme o r = .ok c → c ≠ "" →
            env.gen (sumPrompt c) = .ok s →
            env.repoInfo o r = .ok b →
            env.tree o r b = .ok entries →
            fileStructureSpec entries = "" →
            analyze_repo_route env (some url)
              = (.err 500 "File structure is empty.",
                  [.readme, .gen, .repoInfo, .tree]))
        ∧ (∀ c s b entries e, env.readme o r = .ok c → c ≠ "" →
            env.gen (sumPrompt c) = .ok s →
            env.repoInfo o r = .ok b →
            env.tree o r b = .ok entries →
            fileStructureSpec entries ≠ "" →
            env.gen (anaPrompt (fileStructureSpec entries)) = .error e →
            analyze_repo_route env (some url)
              = (.err 500 ("Error generating analysis: " ++ e),
                  [.readme, .gen, .repoInfo, .tree, .gen]))
        ∧ (∀ c s b entries s2 e, env.readme o r = .ok c → c ≠ "" →
            env.gen (sumPrompt c) = .ok s →
            env.repoInfo o r = .ok b →
            env.tree o r b = .ok entries →
            fileStructureSpec entries ≠ "" →
            env.gen (anaPrompt (fileStructureSpec entries)) = .ok s2 →
            env.gen (setupPrompt c (fileStructureSpec entries)) = .error e →
            analyze_repo_route env (some url)
              = (.err 500 ("Error generating setup guide: " ++ e),
                  [.readme, .gen, .repoInfo, .tree, .gen, .gen]))
        ∧ (∀ c s b entries s2 s3, env.readme o r = .ok c → c ≠ "" →
            env.gen (sumPrompt c) = .ok s →
            env.repoInfo o r = .ok b →
            env.tree o r b = .ok entries →
            fileStructureSpec entries ≠ "" →
            env.gen (anaPrompt (fileStructureSpec entries)) = .ok s2 →
            env.gen (setupPrompt c (fileStructureSpec entries)) = .ok s3 →
            analyze_repo_route env (some url)
              = (.ok (env.md s) (env.md s2) (env.md s3),
                  [.readme, .gen, .repoInfo, .tree, .gen, .gen])))) := by
  have hempty : parse_github_url "" = none := by decide
  refine ⟨rfl, rfl, ?_, ?_, ?_⟩
  · intro hnone hne
    simp [analyze_repo_route, hnone, hne]
  · intro o r hp hor
    have hne : url ≠ "" := by
      intro e
      rw [e, hempty] at hp
      cases hp
    simp [analyze_repo_route, hp, hne, hor]
  · intro o r hp ho hr
    have hne : url ≠ "" := by
      intro e
      rw [e, hempty] at hp
      cases hp
    refine ⟨?_, ?_, ?_, ?_, ?_, ?_, ?_, ?_, ?_⟩
    · intro m hm
      simp [analyze_repo_route, hp, hne, ho, hr, get_github_readme, hm]
    · intro hc
      simp [analyze_repo_route, hp, hne, ho, hr, get_github_readme, hc,
        summarize_readme_with_gemini]
    · intro c e hc hcne hg
      simp [analyze_repo_route, hp, hne, ho, hr, get_github_readme, hc,
        summarize_readme_with_gemini, hcne, hg]
    · intro c s e hc hcne hg hri
      simp [analyze_repo_route, hp, hne, ho, hr, get_github_readme, hc,
        summarize_readme_with_gemini, hcne, hg, get_github_file_structure, hri]
    · intro c s b e hc hcne hg hri ht
      simp [analyze_repo_route, hp, hne, ho, hr, get_github_readme, hc,
        summarize_readme_with_gemini, hcne, hg, get_github_file_structure,
        hri, ht]
    · intro c s b entries hc hcne hg hri ht hfs
      simp only [fileStructureSpec] at hfs
      simp [analyze_repo_route, hp, hne, ho, hr, get_github_readme, hc,
        summarize_readme_with_gemini, hcne, hg, get_github_file_structure,
        hri, ht, analyze_structure_with_gemini, hfs]
    · intro c s b entries e hc hcne hg hri ht hfs hg2
      simp only [fileStructureSpec] at hfs hg2
      simp [analyze_repo_route, hp, hne, ho, hr, get_github_readme, hc,
        summarize_readme_with_gemini, hcne, hg, get_github_file_structure,
        hri, ht, analyze_structure_with_gemini, hfs, hg2]
    · intro c s b entries s2 e hc hcne hg hri ht hfs hg2 hg3
      simp only [fileStructureSpec] at hfs hg2 hg3
      simp [analyze_repo_route, hp, hne, ho, hr, get_github_readme, hc,
        summarize_readme_with_gemini, hcne, hg, get_github_file_structure,
        hri, ht, analyze_structure_with_gemini, hfs, hg2,
        get_setup_guide_with_gemini, hg3]
    · intro c s b entries s2 s3 hc hcne hg hri ht hfs hg2 hg3
      simp only [fileStructureSpec] at hfs hg2 hg3
      simp [analyze_repo_route, hp, hne, ho, hr, get_github_readme, hc,
        summarize_readme_with_gemini, hcne, hg, get_github_file_structure,
        hri, ht, analyze_structure_with_gemini, hfs, hg2,
        get_setup_guide_with_gemini, hg3]

/-- Claim C1 witness: with a failing README fetch the route answers the
fetch error, and the only outbound call is the README request. -/
theorem analyze_first_error_witness :
    analyze_repo_route envW (some "https://github.com/a/b")
      = (.err 500 "An unexpected error occurred: boom", [Call.readme]) := by
  have h := ((analyze_first_error envW "https://github.com/a/b").2.2.2.2
    "a" "b" (by decide) (by decide) (by decide)).1 (GithubErr.other "boom") rfl
  exact h.trans (by decide)

/-- Claim C5, counterexample: the setup-guide step, given empty README and
empty file-structure text, does not return a ModelError without calling
the model — it calls the model (one gen call recorded) and even succeeds
when the model answers. -/
theorem setup_guide_empty_counterexample :
    get_setup_guide_with_gemini envW "" "" = (.ok "X", [Call.gen]) := by
  rfl

/-- Claim C5 (amended): the README-summarization and structure-analysis
steps fail on empty input with the fixed error text and no model call; the
setup-guide step performs exactly one model call regardless of its inputs,
with no empty-input rejection. -/
theorem model_steps_empty_input (env : Upstreams) (readme fs : String) :
    summarize_readme_with_gemini env "" = (.error "README content is empty.", [])
    ∧ analyze_structure_with_gemini env "" = (.error "File structure is empty.", [])
    ∧ (get_setup_guide_with_gemini env readme fs).2 = [Call.gen] := by
  refine ⟨rfl, rfl, ?_⟩
  unfold get_setup_guide_with_gemini
  cases env.gen (setupPrompt readme fs) <;> rfl

/-- Claim C6: a successful file-structure fetch returns exactly the
newline-join of the first 200 blob paths of the recursive tree, in tree
order, after the metadata and tree calls. -/
theorem file_structure_spec_thm (env : Upstreams) (owner repo branch : String)
    (entries : List TreeEntry)
    (hinfo : env.repoInfo owner repo = .ok branch)
    (htree : env.tree owner repo branch = .ok entries) :
    get_github_file_structure env owner repo
      = (.ok (fileStructureSpec entries), [.repoInfo, .tree]) := by
  simp [get_github_file_structure, hinfo, htree, fileStructureSpec]

/-- Claim C6 witness: directory entries are dropped and blob paths are
joined with newlines. -/
theorem file_structure_spec_witness :
    get_github_file_structure envTree "o" "r"
      = (.ok "a.py\nb.md", [Call.repoInfo, Call.tree]) := by
  have h := file_structure_spec_thm envTree "o" "r" "main"
    [⟨"a.py", "blob"⟩, ⟨"docs", "tree"⟩, ⟨"b.md", "blob"⟩] rfl rfl
  exact h.trans (by decide)

/-- Claim C3: the trending search query puts the caller-supplied term
first when present, always includes the created-after token for today
minus 730 days, joins the tokens with plus signs into the query parameter
of a request asking for at most 12 results sorted by stars descending, and
projects each returned item to name, url, stars, description (empty when
null) and forks; the cap and the descending star order transfer from the
GitHub response to the returned list. -/
theorem trending_query_and_projection (env : TrendingEnv) (today : Nat) :
    (∀ s, s ≠ "" →
      trendingUrl env (some s) today
        = "https://api.github.com/search/repositories?q=" ++ (s ++ "+"
          ++ ("created:>" ++ env.dateFmt (today - 730)))
          ++ "&sort=stars&order=desc&per_page=12")
    ∧ (∀ sq, ("created:>" ++ env.dateFmt (today - 730)) ∈ trendingQ env sq today)
    ∧ (∀ sq items, env.search (trendingUrl env sq today) = .ok items →
        trending_repos_route env sq today = .ok (items.map projectItem)
        ∧ (items.map projectItem).length = items.length
        ∧ (items.map projectItem).map (fun e2 => e2.stars)
            = items.map (fun i => i.stargazers_count)
        ∧ (sortedDescBool (items.map (fun i => i.stargazers_count)) = true →
            items.length ≤ 12 →
            sortedDescBool ((items.map projectItem).map (fun e2 => e2.stars)) = true
            ∧ (items.map projectItem).length ≤ 12))
    ∧ (∀ i, projectItem i
        = ⟨i.full_name, i.html_url, i.stargazers_count,
            i.description.getD "", i.forks_count⟩) := by
  refine ⟨?_, ?_, ?_, ?_⟩
  · intro s hs
    simp [trendingUrl, trendingQ, hs, pyJoin]
  · intro sq
    cases sq with
    | none => simp [trendingQ]
    | some s =>
      by_cases h : s = "" <;> simp [trendingQ, h]
  · intro sq items h
    have hmap : (items.map projectItem).map (fun e2 => e2.stars)
        = items.map (fun i => i.stargazers_count) := by
      rw [List.map_map]
      rfl
    refine ⟨by simp [trending_repos_route, h], by simp, hmap, ?_⟩
    intro hsorted hlen
    constructor
    · rw [hmap]
      exact hsorted
    · simpa using hlen
  · intro i
    rfl

/-- Claim C3 witness: a concrete search term is the first token of the
query URL and two returned items are projected in order. -/
theorem trending_query_and_projection_witness :
    trendingUrl envTrend (some "ml") 10000
      = "https://api.github.com/search/repositories?q=ml+created:>2023-10-13&sort=stars&order=desc&per_page=12"
    ∧ trending_repos_route envTrend (some "ml") 10000
      = .ok [⟨"a/b", "u1", 50, "", 3⟩, ⟨"c/d", "u2", 10, "dd", 4⟩] := by
  constructor
  · have h := (trending_query_and_projection envTrend 10000).1 "ml" (by decide)
    exact h.trans (by decide)
  · have h := ((trending_query_and_projection envTrend 10000).2.2.1 (some "ml")
      [⟨"a/b", "u1", 50, none, 3⟩, ⟨"c/d", "u2", 10, some "dd", 4⟩] rfl).1
    exact h.trans (by decide)

theorem mem_insertByTsDesc (p q : Post) (l : List Post) :
    q ∈ insertByTsDesc p l ↔ q = p ∨ q ∈ l := by
  induction l with
  | nil => simp [insertByTsDesc]
  | cons x t ih =>
    by_cases h : x.timestamp < p.timestamp
    · simp [insertByTsDesc, h]
    · simp [insertByTsDesc, h, ih]
      tauto

theorem mem_sortByTsDesc (q : Post) (l : List Post) :
    q ∈ sortByTsDesc l ↔ q ∈ l := by
  induction l with
  | nil => simp [sortByTsDesc]
  | cons x t ih => simp [sortByTsDesc, mem_insertByTsDesc, ih]

/-- Claim C4: add_post never mutates the store when it reports an error —
a falsy (missing or empty) repository name or idea answers 400 with the
store unchanged, and a commit failure is rolled back, answering 500 with
the store unchanged. -/
theorem add_post_no_mutation_on_error (st : Store) (rn idv : Option String)
    (now : Nat) (dbOk : Bool) :
    (pyTruthy rn = false →
      add_post st rn idv now dbOk
        = (st, ⟨400, false, "Missing repository name or idea."⟩))
    ∧ (pyTruthy idv = false →
      add_post st rn idv now dbOk
        = (st, ⟨400, false, "Missing repository name or idea."⟩))
    ∧ (pyTruthy rn = true → pyTruthy idv = true → dbOk = false →
      add_post st rn idv now dbOk = (st, ⟨500, false, "Database error."⟩)) := by
  refine ⟨?_, ?_, ?_⟩
  · intro h
    cases rn with
    | none => cases idv <;> rfl
    | some r =>
      cases idv with
      | none => rfl
      | some i =>
        simp [pyTruthy] at h
        simp [add_post, h]
  · intro h
    cases idv with
    | none => cases rn <;> rfl
    | some i =>
      cases rn with
      | none => rfl
      | some r =>
        simp [pyTruthy] at h
        simp [add_post, h]
  · intro h1 h2 h3
    cases rn with
    | none => cases h1
    | some r =>
      cases idv with
      | none => cases h2
      | some i =>
        simp [pyTruthy] at h1 h2
        simp [add_post, h1, h2, h3]

/-- Claim C4 witness: an empty repository name leaves the empty store
unchanged with a 400, and a commit failure leaves it unchanged with a 500. -/
theorem add_post_no_mutation_witness :
    add_post emptyStore (some "") (some "x") 0 true
      = (emptyStore, ⟨400, false, "Missing repository name or idea."⟩)
    ∧ add_post emptyStore (some "r") (some "x") 0 false
      = (emptyStore, ⟨500, false, "Database error."⟩) :=
  ⟨(add_post_no_mutation_on_error emptyStore (some "") (some "x") 0 true).1
      (by decide),
   (add_post_no_mutation_on_error emptyStore (some "r") (some "x") 0 false).2.2
      (by decide) (by decide) rfl⟩

/-- Claim C9: the non-emptiness invariant of the Post table (repo_name and
idea non-empty) is preserved by add_post, the only exposed mutation, since
it rejects falsy fields before any write. -/
theorem add_post_preserves_inv (st : Store) (rn idv : Option String)
    (now : Nat) (dbOk : Bool) (h : postsNonEmptyInv st) :
    postsNonEmptyInv (add_post st rn idv now dbOk).1 := by
  cases rn with
  | none => cases idv <;> exact h
  | some r =>
    cases idv with
    | none => exact h
    | some i =>
      by_cases hv : (r != "" && i != "") = true
      · cases dbOk with
        | false => simpa [add_post, hv] using h
        | true =>
          rw [Bool.and_eq_true_iff, bne_iff_ne, bne_iff_ne] at hv
          intro p hp
          rw [show (add_post st (some r) (some i) now true).1
              = ⟨st.posts ++ [⟨st.nextId, r, i, now⟩], st.comments, st.nextId + 1⟩
              from by simp [add_post, hv.1, hv.2]] at hp
          rcases List.mem_append.1 hp with hold | hnew
          · exact h p hold
          · rw [List.mem_singleton] at hnew
            rw [hnew]
            exact ⟨hv.1, hv.2⟩
      · rw [Bool.not_eq_true] at hv
        simpa [add_post, hv] using h

/-- Claim C9 witness: the invariant holds of the initial store and of the
store after a successful valid insertion. -/
theorem add_post_preserves_inv_witness :
    postsNonEmptyInv emptyStore
    ∧ postsNonEmptyInv (add_post emptyStore (some "repoA") (some "ideaX") 7 true).1 :=
  ⟨by decide,
   add_post_preserves_inv emptyStore (some "repoA") (some "ideaX") 7 true (by decide)⟩

/-- Claim C7: with three posts created at strictly increasing times the
listing returns them newest first, and every returned summary carries a
comments_count equal to the number of stored comments referencing that
post at read time. -/
theorem get_posts_ordering (p1 p2 p3 : Post) (cs : List Comment) (n : Nat)
    (fmt : Nat → String)
    (h12 : p1.timestamp < p2.timestamp) (h23 : p2.timestamp < p3.timestamp) :
    get_posts ⟨[p1, p2, p3], cs, n⟩ fmt
      = [⟨p3.id, p3.repo_name, p3.idea, fmt p3.timestamp,
            (cs.filter (fun c => c.post_id == p3.id)).length⟩,
         ⟨p2.id, p2.repo_name, p2.idea, fmt p2.timestamp,
            (cs.filter (fun c => c.post_id == p2.id)).length⟩,
         ⟨p1.id, p1.repo_name, p1.idea, fmt p1.timestamp,
            (cs.filter (fun c => c.post_id == p1.id)).length⟩]
    ∧ (∀ (st : Store) (fmt2 : Nat → String), ∀ e2 ∈ get_posts st fmt2, ∃ p,
        p ∈ st.posts
        ∧ e2 = ⟨p.id, p.repo_name, p.idea, fmt2 p.timestamp,
            (st.comments.filter (fun c => c.post_id == p.id)).length⟩) := by
  constructor
  · have n31 : ¬ p3.timestamp < p1.timestamp := by omega
    have n21 : ¬ p2.timestamp < p1.timestamp := by omega
    have n32 : ¬ p3.timestamp < p2.timestamp := by omega
    simp [get_posts, sortByTsDesc, insertByTsDesc, n31, n21, n32]
  · intro st fmt2 e2 he2
    rw [get_posts, List.mem_map] at he2
    obtain ⟨p, hp, rfl⟩ := he2
    exact ⟨p, (mem_sortByTsDesc p st.posts).1 hp, rfl⟩

/-- Claim C7 witness: three concrete posts come back newest first and the
single comment on the newest post is counted. -/
theorem get_posts_ordering_witness :
    get_posts ⟨[⟨1, "a", "x", 10⟩, ⟨2, "b", "y", 20⟩, ⟨3, "c", "z", 30⟩],
        [⟨1, "t", 5, 3⟩], 4⟩ (fun _ => "T")
      = [⟨3, "c", "z", "T", 1⟩, ⟨2, "b", "y", "T", 0⟩, ⟨1, "a", "x", "T", 0⟩] := by
  have h := (get_posts_ordering ⟨1, "a", "x", 10⟩ ⟨2, "b", "y", 20⟩
    ⟨3, "c", "z", 30⟩ [⟨1, "t", 5, 3⟩] 4 (fun _ => "T")
    (by decide) (by decide)).1
  exact h.trans (by decide)

/-- Claim C8: from the empty store, creating the post (repoA, ideaX) and
then listing returns exactly one summary with that name and idea and a
comment count of zero. -/
theorem create_then_list_roundtrip (now : Nat) (fmt : Nat → String) :
    get_posts (add_post emptyStore (some "repoA") (some "ideaX") now true).1 fmt
      = [⟨1, "repoA", "ideaX", fmt now, 0⟩] := by
  rfl

end CodeAtlas
